import Mathlib

/-!
# Package `daemon`, Linux part: init-system detection and the upstart variant

A shallow embedding of `src/daemon_linux.go`, `src/helper_nix.go` and
`src/daemon_linux_upstart.go`.

The Go code acts on the host through `os` and `os/exec`.  The embedding makes
that explicit: every operation is a function from a `World` to a result and a
new `World`.  A `World` holds the filesystem, the rest of the host's state (an
arbitrary type `σ`: the init daemon's job table, the process table, ...) and a
log of the external commands issued so far.  How the host answers (what a
program prints, whether a system call fails) is given by a `Host`, over which
every theorem is universally quantified.

Modelling conventions:
* a Go `error` is an `Option String`: `none` is `nil`, `some msg` is a non-nil
  error whose `Error()` text is `msg`;
* a Go `string` is a Lean `String` (texts are taken to be valid UTF-8);
* `os.Stat p` succeeds exactly when `p` is present in the model filesystem;
* external programs (`id`, `initctl`) may read the filesystem and change the
  host state `σ`, they do not change the filesystem;
* `defer file.Close()` and `defer utils.Recover_and_log()` have no counterpart:
  no modelled step panics and closing a file changes nothing the model tracks.
-/

namespace DaemonPkg

/-! ## Host model -/

/-- A Go `error` value: `none` is `nil`. -/
abbrev GoError := Option String

/-- A regular file or directory of the model filesystem: permission bits and content. -/
structure File where
  mode : Nat
  content : String
  deriving DecidableEq, Repr

/-- The filesystem: the file found at each path, if any. -/
abbrev FS := String → Option File

/-- What running an external program yields: the error of `Run`/`Output`/`CombinedOutput`
(`none` for exit status 0), the standard output and the combined output. -/
structure CmdResult where
  err : GoError
  stdout : String
  combined : String
  deriving DecidableEq, Repr

/-- The behaviour of the host, outside the control of the package. -/
structure Host (σ : Type) where
  /-- running `argv` (program name first): its result and the new host state -/
  run : List String → FS → σ → CmdResult × σ
  /-- the process's file mode creation mask -/
  umask : Nat
  /-- the error with which `os.Create path` fails, if it fails -/
  createErr : FS → σ → String → GoError
  /-- the error with which `os.Open path` fails on an existing path, if it fails -/
  openErr : FS → σ → String → GoError
  /-- the error with which `Stat` on an open file fails, if it fails -/
  fstatErr : FS → σ → String → GoError
  /-- a failing write to `path`: how many characters got written, and the error -/
  writeErr : FS → σ → String → Option (Nat × String)
  /-- the error with which `os.Remove path` fails on an existing path, if it fails -/
  removeErr : FS → σ → String → GoError
  /-- `exec.LookPath name`: the path found, `none` on error -/
  lookPath : FS → σ → String → Option String
  /-- `os.Readlink path` -/
  readlink : FS → σ → String → String × GoError

/-- The state the operations act on. -/
structure World (σ : Type) where
  fs : FS
  st : σ
  /-- the external commands issued so far, oldest first -/
  log : List (List String)

variable {σ : Type}

/-- `_, err := os.Stat(p); err == nil` -/
def osStat (w : World σ) (p : String) : Bool :=
  (w.fs p).isSome

/-- `exec.Command(argv...)` followed by `Run`, `Output` or `CombinedOutput`. -/
def execCommand (h : Host σ) (argv : List String) (w : World σ) : CmdResult × World σ :=
  let r := h.run argv w.fs w.st
  (r.1, { w with st := r.2, log := w.log ++ [argv] })

/-- Go's `a &^ b` on naturals. -/
def andNot (a b : Nat) : Nat :=
  a - (a &&& b)

/-- `os.Create(p)`: open with `O_RDWR|O_CREATE|O_TRUNC`, mode `0666` before umask. -/
def osCreate (h : Host σ) (p : String) (w : World σ) : GoError × World σ :=
  match h.createErr w.fs w.st p with
  | some e => (some e, w)
  | none =>
    let mode := match w.fs p with
      | some f => f.mode
      | none => andNot 0o666 h.umask
    (none, { w with fs := Function.update w.fs p (some ⟨mode, ""⟩) })

/-- `os.Remove(p)` -/
def osRemove (h : Host σ) (p : String) (w : World σ) : GoError × World σ :=
  match w.fs p with
  | none => (some ("remove " ++ p ++ ": no such file or directory"), w)
  | some _ =>
    match h.removeErr w.fs w.st p with
    | some e => (some e, w)
    | none => (none, { w with fs := Function.update w.fs p none })

/-! ## `src/daemon_linux.go` -/

/-- The value `newDaemon` returns: which record type was built, with the
three values of the composite literal. -/
inductive Daemon where
  | systemDRecord (name path description : String)
  | upstartRecord (name path description : String)
  | systemVRecord (name path description : String)
  deriving DecidableEq, Repr

/-- `newDaemon`: get the daemon properly. -/
def newDaemon (w : World σ) (name path description : String) : Daemon × GoError :=
  if osStat w "/run/systemd/system" then
    (Daemon.systemDRecord name path description, none)
  else if osStat w "/etc/init" then
    if osStat w "/sbin/initctl" then
      (Daemon.upstartRecord name path description, none)
    else
      (Daemon.systemVRecord name path description, none)
  else
    (Daemon.systemVRecord name path description, none)

/-- `execPath`: get executable path. -/
def execPath (h : Host σ) (w : World σ) : String × GoError :=
  h.readlink w.fs w.st "/proc/self/exe"

/-! ## `src/helper_nix.go` -/

def rootPrivileges : String :=
  "You must have root user privileges. Possibly using 'sudo' command should help"

/-- Colored "OK". -/
def success : String := "\t\t\t\t\t[  \x1b[32mOK\x1b[0m  ]"

/-- Colored "FAILED". -/
def failed : String := "\t\t\t\t\t[\x1b[31mFAILED\x1b[0m]"

/-- `IsExecutable(path)` -/
def IsExecutable (h : Host σ) (path : String) (w : World σ) : Bool × GoError :=
  match w.fs path with
  | none => (false, some ("open " ++ path ++ ": no such file or directory"))
  | some f =>
    match h.openErr w.fs w.st path with
    | some e => (false, some e)
    | none =>
      match h.fstatErr w.fs w.st path with
      | some e => (false, some e)
      | none => if f.mode &&& 0o111 ≠ 0 then (true, none) else (false, none)

/-- `executablePath(name)`: lookup path for executable file. -/
def executablePath (h : Host σ) (name : String) (w : World σ) : String × GoError :=
  match h.lookPath w.fs w.st name with
  | some path => if osStat w path then (path, none) else execPath h w
  | none => execPath h w

/-- The value of a run of decimal digits. -/
def digitsValue (ds : List Char) : Nat :=
  ds.foldl (fun n c => 10 * n + (c.toNat - 48)) 0

/-- `strconv.Atoi` on a 64-bit platform: an optional sign, then one or more decimal
digits, the value within the range of `int`.  The error texts are approximations;
the package only ever compares the error with `nil`. -/
def Atoi (s : String) : Int × GoError :=
  let syntaxErr := some ("strconv.Atoi: parsing \"" ++ s ++ "\": invalid syntax")
  let rangeErr := some ("strconv.Atoi: parsing \"" ++ s ++ "\": value out of range")
  match s.data with
  | [] => (0, syntaxErr)
  | c :: cs =>
    let neg := c == '-'
    let ds := if c == '-' || c == '+' then cs else c :: cs
    if ds.isEmpty || !ds.all Char.isDigit then (0, syntaxErr)
    else
      let n := digitsValue ds
      if neg then
        if n ≤ 2 ^ 63 then (-(n : Int), none) else (-(2 ^ 63 : Int), rangeErr)
      else
        if n < 2 ^ 63 then ((n : Int), none) else ((2 ^ 63 - 1 : Int), rangeErr)

/-- The pieces of `cs` between line feeds. -/
def splitLines : List Char → List (List Char)
  | [] => [[]]
  | c :: cs =>
    match splitLines cs with
    | [] => [[c]]
    | l :: ls => if c = '\n' then [] :: l :: ls else (c :: l) :: ls

/-- The lines of a program's output, as a line scanner yields them: the text
between line feeds, without an empty piece after the last line feed. -/
def outputLines (s : String) : List String :=
  let ls := splitLines s.data
  (if ls.getLast? = some [] then ls.dropLast else ls).map String.mk

/-- The callback `get_gid` hands to `ReadCommand`, folded over the lines: the
`gid` variable it assigns, and the first error it returns. -/
def gidLines : List String → Int → Int × GoError
  | [], gid => (gid, none)
  | l :: ls, gid =>
    match Atoi l with
    | (v, none) => gidLines ls v
    | (_, some e) => (gid, some e)

/-- Modelled from the spec: `ReadCommand` is a function of the package that is not
among the source files; the spec describes the privilege check as "delegated to
an external command" run through the command runner, which "executes a named
external program with arguments" and returns its output and success or failure.
It runs the program once, fails with the program's error if there is one, and
otherwise feeds the output to the callback line by line until the callback
returns an error.  Here it is specialised to the callback of `get_gid`. -/
def ReadCommand (h : Host σ) (argv : List String) (gid : Int) (w : World σ) :
    (Int × GoError) × World σ :=
  let r := execCommand h argv w
  (match r.1.err with
    | some e => (gid, some e)
    | none => gidLines (outputLines r.1.stdout) gid,
   r.2)

/-- `get_gid` -/
def get_gid (h : Host σ) (w : World σ) : (Int × GoError) × World σ :=
  ReadCommand h ["id", "-g"] (-1) w

/-- `checkPrivileges`: check root rights to use system service. -/
def checkPrivileges (h : Host σ) (w : World σ) : Bool × World σ :=
  let r := get_gid h w
  (r.1.2.isNone && r.1.1 == 0, r.2)


/-! ## `src/daemon_linux_upstart.go` -/

/-- Whether `sub` occurs in `cs` as a contiguous block. -/
def containsChars (sub : List Char) : List Char → Bool
  | [] => sub.isEmpty
  | c :: cs => sub.isPrefixOf (c :: cs) || containsChars sub cs

/-- `strings.Contains(s, substr)`; also `regexp.MatchString(substr, s)` for a
pattern without metacharacters, such as `start/running`. -/
def stringsContains (s substr : String) : Bool :=
  containsChars substr.data s.data

/-- A match of `process [0-9]+` starting at the head of `cs`: the text matched,
the digits taken greedily. -/
def matchProcessHere (cs : List Char) : Option (List Char) :=
  if "process ".data.isPrefixOf cs then
    let ds := (cs.drop 8).takeWhile Char.isDigit
    if ds.isEmpty then none else some ("process ".data ++ ds)
  else none

/-- The leftmost match of `process [0-9]+` in `cs`. -/
def findProcess : List Char → Option (List Char)
  | [] => none
  | c :: cs =>
    match matchProcessHere (c :: cs) with
    | some m => some m
    | none => findProcess cs

/-- `regexp.MustCompile("process [0-9]+").FindStringSubmatch(s)`: `nil` when
nothing matches, otherwise the text of the leftmost match followed by the texts
of the capture groups, of which the pattern has none. -/
def FindStringSubmatch (s : String) : List String :=
  match findProcess s.data with
  | none => []
  | some m => [String.mk m]

/-- `upstartRecord`: standard record (struct) for linux upstart version of daemon package. -/
structure upstartRecord where
  name : String
  description : String
  deriving DecidableEq, Repr

/-- Standard service path for upstart daemons. -/
def upstartRecord.servicePath (linux : upstartRecord) : String :=
  "/etc/init/" ++ linux.name ++ ".conf"

/-- Check service is installed. -/
def upstartRecord.checkInstalled (linux : upstartRecord) (w : World σ) : Bool :=
  if osStat w linux.servicePath then true else false

/-- Check service is running. -/
def upstartRecord.checkRunning (h : Host σ) (linux : upstartRecord) (w : World σ) :
    (String × Bool) × World σ :=
  let r := execCommand h ["initctl", "status", linux.name] w
  let output := r.1.stdout
  (if r.1.err = none ∧ stringsContains output "start/running" = true then
      let data := FindStringSubmatch output
      if hlen : data.length > 1 then
        ("Service (pid  " ++ data[1] ++ ") is running...", true)
      else
        ("Service is running...", true)
    else
      ("Service is stopped", false),
   r.2)

/-- The text `upstartConfig` yields once executed with `Name`, `Description` and `Path`. -/
def upstartConfig (name description path : String) : String :=
  "\ndescription \"" ++ name ++ ", " ++ description ++ "\"\n\n" ++
  "start on runlevel [2345]\nstop on runlevel [!2345]\n\n" ++
  "respawn\npre-start exec sleep 1\nexec " ++ path ++ "\n"

/-- `templ.Execute(file, data)` on the file just created at `srvPath`.  (Parsing the
constant template text cannot fail, so `template.New(...).Parse` has no error case.) -/
def templExecute (h : Host σ) (srvPath text : String) (w : World σ) : GoError × World σ :=
  let mode := match w.fs srvPath with
    | some f => f.mode
    | none => 0
  match h.writeErr w.fs w.st srvPath with
  | some (n, e) =>
    (some e, { w with fs := Function.update w.fs srvPath (some ⟨mode, String.mk (text.data.take n)⟩) })
  | none =>
    (none, { w with fs := Function.update w.fs srvPath (some ⟨mode, text⟩) })

/-- `InstallFromPath` -/
def upstartRecord.InstallFromPath (h : Host σ) (linux : upstartRecord) (thePath : String)
    (w : World σ) : (String × GoError) × World σ :=
  let installAction := "Install " ++ linux.description ++ ":"
  let p := checkPrivileges h w
  if p.1 = false then
    ((installAction ++ failed, some rootPrivileges), p.2)
  else
    let srvPath := linux.servicePath
    if linux.checkInstalled p.2 = true then
      ((installAction ++ failed, some (linux.description ++ " already installed")), p.2)
    else
      let c := osCreate h srvPath p.2
      match c.1 with
      | some e => ((installAction ++ failed, some e), c.2)
      | none =>
        let x := IsExecutable h thePath c.2
        match x.2 with
        | some e => ((installAction ++ failed, some e), c.2)
        | none =>
          if x.1 = false then
            ((installAction ++ failed, some ("target is not executable: " ++ thePath)), c.2)
          else
            let t := templExecute h srvPath
              (upstartConfig linux.name linux.description thePath) c.2
            match t.1 with
            | some e => ((installAction ++ failed, some e), t.2)
            | none =>
              let r := execCommand h ["initctl", "reload-configuration"] t.2
              match r.1.err with
              | some e => ((installAction ++ failed, some e), r.2)
              | none => ((installAction ++ success, none), r.2)

/-- Install the service. -/
def upstartRecord.Install (h : Host σ) (linux : upstartRecord) (w : World σ) :
    (String × GoError) × World σ :=
  let installAction := "Install " ++ linux.description ++ ":"
  let e := executablePath h linux.name w
  match e.2 with
  | some err => ((installAction ++ failed, some err), w)
  | none => linux.InstallFromPath h e.1 w

/-- The text `%v` prints for an error. -/
def errorText : GoError → String
  | none => "<nil>"
  | some e => e

/-- `stop_only` -/
def upstartRecord.stop_only (h : Host σ) (linux : upstartRecord) (w : World σ) :
    (Bool × GoError) × World σ :=
  let r := execCommand h ["initctl", "stop", linux.name] w
  let line := errorText r.1.err ++ ": " ++ r.1.combined
  (if r.1.err ≠ none then
      if stringsContains line "Unknown instance" then
        (true, none)
      else
        (false, some ("unknown error: " ++ line))
    else
      if stringsContains line "stop/waiting" then
        (true, none)
      else
        (false, some ("unknown output: " ++ line)),
   r.2)

/-- Remove the service. -/
def upstartRecord.Remove (h : Host σ) (linux : upstartRecord) (w : World σ) :
    (String × GoError) × World σ :=
  let removeAction := "Removing " ++ linux.description ++ ":"
  let p := checkPrivileges h w
  if p.1 = false then
    ((removeAction ++ failed, some rootPrivileges), p.2)
  else if linux.checkInstalled p.2 = false then
    ((removeAction ++ failed, some (linux.description ++ " is not installed")), p.2)
  else
    let s := linux.stop_only h p.2
    match s.1.2 with
    | some err => ((removeAction ++ failed, some err), s.2)
    | none =>
      let d := osRemove h linux.servicePath s.2
      match d.1 with
      | some err => ((removeAction ++ failed, some err), d.2)
      | none =>
        let r := execCommand h ["initctl", "reload-configuration"] d.2
        match r.1.err with
        | some err => ((removeAction ++ failed, some err), r.2)
        | none => ((removeAction ++ success, none), r.2)

/-- Start the service. -/
def upstartRecord.Start (h : Host σ) (linux : upstartRecord) (w : World σ) :
    (String × GoError) × World σ :=
  let startAction := "Starting " ++ linux.description ++ ":"
  let p := checkPrivileges h w
  if p.1 = false then
    ((startAction ++ failed, some rootPrivileges), p.2)
  else if linux.checkInstalled p.2 = false then
    ((startAction ++ failed, some (linux.description ++ " is not installed")), p.2)
  else
    let c := linux.checkRunning h p.2
    if c.1.2 = true then
      ((startAction ++ failed, some "service already running"), c.2)
    else
      let r := execCommand h ["initctl", "start", linux.name] c.2
      match r.1.err with
      | some err => ((startAction ++ failed, some err), r.2)
      | none => ((startAction ++ success, none), r.2)

/-- Stop the service. -/
def upstartRecord.Stop (h : Host σ) (linux : upstartRecord) (w : World σ) :
    (String × GoError) × World σ :=
  let stopAction := "Stopping " ++ linux.description ++ ":"
  let p := checkPrivileges h w
  if p.1 = false then
    ((stopAction ++ failed, some rootPrivileges), p.2)
  else if linux.checkInstalled p.2 = false then
    ((stopAction ++ failed, some (linux.description ++ " is not installed")), p.2)
  else
    let c := linux.checkRunning h p.2
    if c.1.2 = false then
      ((stopAction ++ failed, some "service already stopped"), c.2)
    else
      let r := execCommand h ["initctl", "stop", linux.name] c.2
      match r.1.err with
      | some err => ((stopAction ++ failed, some err), r.2)
      | none => ((stopAction ++ success, none), r.2)

/-- Status: get service status. -/
def upstartRecord.Status (h : Host σ) (linux : upstartRecord) (w : World σ) :
    (String × GoError) × World σ :=
  let p := checkPrivileges h w
  if p.1 = false then
    (("", some rootPrivileges), p.2)
  else if linux.checkInstalled p.2 = false then
    (("Status could not defined", some (linux.description ++ " is not installed")), p.2)
  else
    let c := linux.checkRunning h p.2
    ((c.1.1, none), c.2)

/-! ## Concrete hosts used to exercise the definitions -/

/-- A host whose state is the running flag of the one job it knows.  `id -g` prints
`gid`; `initctl start`/`stop` set and clear the flag, `initctl stop` failing with
the error text and combined output of `stop` when that is given; `initctl status`
prints `statusOut` when the job runs.  No system call fails. -/
def demoHost (gid : String) (stop : Option (String × String)) (statusOut : String) :
    Host Bool where
  run := fun argv _ running =>
    match argv with
    | ["id", "-g"] => (⟨none, gid ++ "\n", gid ++ "\n"⟩, running)
    | ["initctl", "status", _] =>
      if running then (⟨none, statusOut, statusOut⟩, running)
      else (⟨none, "demo stop/waiting\n", "demo stop/waiting\n"⟩, running)
    | ["initctl", "start", _] => (⟨none, statusOut, statusOut⟩, true)
    | ["initctl", "stop", _] =>
      match stop with
      | some (e, out) => (⟨some e, "", out⟩, running)
      | none => (⟨none, "demo stop/waiting\n", "demo stop/waiting\n"⟩, false)
    | _ => (⟨none, "", ""⟩, running)
  umask := 0o022
  createErr := fun _ _ _ => none
  openErr := fun _ _ _ => none
  fstatErr := fun _ _ _ => none
  writeErr := fun _ _ _ => none
  removeErr := fun _ _ _ => none
  lookPath := fun _ _ name => some ("/usr/local/bin/" ++ name)
  readlink := fun _ _ _ => ("/usr/local/bin/demo", none)

/-- The service of the spec's concrete scenario. -/
def demo : upstartRecord := ⟨"demo", "Demo Service"⟩

/-- A filesystem holding the given files and nothing else. -/
def fsOf (files : List (String × File)) : FS :=
  fun p => (files.lookup p)

/-- An upstart host: `/etc/init` and `/sbin/initctl` exist, the target
`/usr/local/bin/demo` has mode `targetMode`, and the definition file of `demo`
exists when `installed`. -/
def demoFS (targetMode : Nat) (installed : Bool) : FS :=
  fsOf ([("/etc/init", ⟨0o755, ""⟩), ("/sbin/initctl", ⟨0o755, ""⟩),
         ("/usr/local/bin/demo", ⟨targetMode, ""⟩)] ++
        if installed then [("/etc/init/demo.conf", ⟨0o644, "conf"⟩)] else [])

/-- The world before any command was issued. -/
def demoWorld (targetMode : Nat) (installed running : Bool) : World Bool :=
  ⟨demoFS targetMode installed, running, []⟩

/-! ## Predicates used to state the properties -/

/-- The outcome `r` of an operation started in `w` that was refused for lack of
privileges: the error carries the `rootPrivileges` text, the filesystem is the one
of `w`, and the only command issued is the `id -g` of the privilege check. -/
def RefusedUnprivileged (w : World σ) (r : (String × GoError) × World σ) : Prop :=
  r.1.2 = some rootPrivileges ∧ r.2.fs = w.fs ∧ r.2.log = w.log ++ [["id", "-g"]]

/-- On this host a successful `initctl start <name>` makes the status output contain
"start/running": whenever the start command succeeds, the `initctl status <name>` that
the next operation issues, after its `id -g`, succeeds and prints "start/running". -/
def StartTakesEffect (h : Host σ) (name : String) : Prop :=
  ∀ (fs : FS) (st : σ), (h.run ["initctl", "start", name] fs st).1.err = none →
    (h.run ["initctl", "status", name] fs
      (h.run ["id", "-g"] fs (h.run ["initctl", "start", name] fs st).2).2).1.err = none ∧
    stringsContains
      (h.run ["initctl", "status", name] fs
        (h.run ["id", "-g"] fs (h.run ["initctl", "start", name] fs st).2).2).1.stdout
      "start/running" = true

/-- The result `r` carries `label` followed by the success marker exactly when its
error is nil, and `label` followed by the failure marker exactly when it is not. -/
def Marked (label : String) (r : String × GoError) : Prop :=
  (r.1 = label ++ success ↔ r.2 = none) ∧ (r.1 = label ++ failed ↔ r.2 ≠ none)

/-! ## Auxiliary facts -/

theorem containsChars_iff (sub l : List Char) : containsChars sub l = true ↔ sub <:+: l := by
  induction l with
  | nil => simp [containsChars, List.isEmpty_iff]
  | cons c cs ih =>
    simp only [containsChars, Bool.or_eq_true, ih, List.isPrefixOf_iff_prefix]
    exact (List.infix_cons_iff).symm

theorem stringsContains_iff (s sub : String) :
    stringsContains s sub = true ↔ sub.data <:+: s.data := by
  simp [stringsContains, containsChars_iff]

/-- A block without the character `c` that occurs in `a ++ c :: b` occurs in `a` or in `b`. -/
theorem infix_of_infix_sep {sub a b : List Char} {c : Char} (hc : c ∉ sub)
    (hsub : sub <:+: a ++ c :: b) : sub <:+: a ∨ sub <:+: b := by
  obtain ⟨s, t, hst⟩ := hsub
  rw [List.append_eq_append_iff] at hst
  rcases hst with ⟨a', ha, _⟩ | ⟨c', ha, hb⟩
  · exact Or.inl ⟨s, a', ha.symm⟩
  · cases c' with
    | nil =>
      rw [List.append_nil] at ha
      exact Or.inl ⟨s, [], by simp [ha]⟩
    | cons x c'' =>
      rw [List.cons_append, List.cons_eq_cons] at hb
      obtain ⟨rfl, rfl⟩ := hb
      rw [List.append_eq_append_iff] at ha
      rcases ha with ⟨a', _, hsub⟩ | ⟨d, hs, hd⟩
      · exact absurd (by simp [hsub]) hc
      · cases d with
        | nil =>
          rw [List.nil_append] at hd
          exact absurd (by simp [← hd]) hc
        | cons y d' =>
          rw [List.cons_append, List.cons_eq_cons] at hd
          obtain ⟨_, rfl⟩ := hd
          exact Or.inr ⟨d', t, by simp⟩

/-- The line `stop_only` formats contains "Unknown instance" exactly when the error
text or the combined output does. -/
theorem line_contains_unknown (e o : String) :
    stringsContains (e ++ ": " ++ o) "Unknown instance" =
      (stringsContains e "Unknown instance" || stringsContains o "Unknown instance") := by
  rw [Bool.eq_iff_iff]
  simp only [Bool.or_eq_true, stringsContains_iff, String.data_append]
  constructor
  · intro hl
    have h1 : "Unknown instance".data <:+: e.data ++ ':' :: (' ' :: o.data) := by
      simpa using hl
    rcases infix_of_infix_sep (by decide) h1 with h2 | h2
    · exact Or.inl h2
    · rcases List.infix_cons_iff.mp h2 with h3 | h3
      · obtain ⟨t, ht⟩ := h3
        have hhead := congrArg List.head? ht
        simp at hhead
      · exact Or.inr h3
  · rintro (hl | hl)
    · exact hl.trans ⟨[], ": ".data ++ o.data, by simp⟩
    · exact hl.trans ⟨e.data ++ ": ".data, [], by simp⟩


/-! ### What the probes leave untouched -/

@[simp] theorem execCommand_fs (h : Host σ) (argv : List String) (w : World σ) :
    (execCommand h argv w).2.fs = w.fs := rfl

@[simp] theorem execCommand_log (h : Host σ) (argv : List String) (w : World σ) :
    (execCommand h argv w).2.log = w.log ++ [argv] := rfl

@[simp] theorem checkPrivileges_fs (h : Host σ) (w : World σ) :
    (checkPrivileges h w).2.fs = w.fs := rfl

@[simp] theorem checkPrivileges_log (h : Host σ) (w : World σ) :
    (checkPrivileges h w).2.log = w.log ++ [["id", "-g"]] := rfl

@[simp] theorem checkInstalled_checkPrivileges (h : Host σ) (linux : upstartRecord)
    (w : World σ) : linux.checkInstalled (checkPrivileges h w).2 = linux.checkInstalled w := rfl

@[simp] theorem checkRunning_fs (h : Host σ) (linux : upstartRecord) (w : World σ) :
    (linux.checkRunning h w).2.fs = w.fs := rfl

@[simp] theorem checkRunning_log (h : Host σ) (linux : upstartRecord) (w : World σ) :
    (linux.checkRunning h w).2.log = w.log ++ [["initctl", "status", linux.name]] := rfl

@[simp] theorem stop_only_fs (h : Host σ) (linux : upstartRecord) (w : World σ) :
    (linux.stop_only h w).2.fs = w.fs := rfl

@[simp] theorem stop_only_log (h : Host σ) (linux : upstartRecord) (w : World σ) :
    (linux.stop_only h w).2.log = w.log ++ [["initctl", "stop", linux.name]] := rfl

/-! ### The running probe -/

theorem FindStringSubmatch_length (s : String) : (FindStringSubmatch s).length ≤ 1 := by
  unfold FindStringSubmatch
  split <;> simp

/-- The pattern has no capture group, so the branch of `checkRunning` that reads
`data[1]` is never taken: the probe answers with one of two fixed lines. -/
theorem checkRunning_result (h : Host σ) (linux : upstartRecord) (w : World σ) :
    (linux.checkRunning h w).1 =
      if (h.run ["initctl", "status", linux.name] w.fs w.st).1.err = none ∧
          stringsContains (h.run ["initctl", "status", linux.name] w.fs w.st).1.stdout
            "start/running" = true then
        ("Service is running...", true)
      else
        ("Service is stopped", false) := by
  have hlen := FindStringSubmatch_length
    (h.run ["initctl", "status", linux.name] w.fs w.st).1.stdout
  simp only [upstartRecord.checkRunning, execCommand]
  split
  · rw [dif_neg (by omega)]
  · rfl

/-! ### The markers -/

theorem success_ne_failed (label : String) : label ++ success ≠ label ++ failed := by
  intro heq
  have hdata := congrArg String.data heq
  simp only [String.data_append, List.append_cancel_left_eq] at hdata
  exact absurd hdata (by decide)

/-! ## C1: init-system detection -/

/-- C1. For every filesystem, `newDaemon` returns a nil error and the variant picked by
the ordered rule: systemd whenever `/run/systemd/system` exists, also when both upstart
markers exist; otherwise upstart exactly when `/etc/init` and `/sbin/initctl` both
exist; otherwise System V. -/
theorem newDaemon_selects_by_priority (w : World σ) (name path description : String) :
    (newDaemon w name path description).2 = none ∧
    (newDaemon w name path description).1 =
      if (w.fs "/run/systemd/system").isSome then
        Daemon.systemDRecord name path description
      else if (w.fs "/etc/init").isSome ∧ (w.fs "/sbin/initctl").isSome then
        Daemon.upstartRecord name path description
      else
        Daemon.systemVRecord name path description := by
  unfold newDaemon osStat
  by_cases h1 : (w.fs "/run/systemd/system").isSome = true <;>
  by_cases h2 : (w.fs "/etc/init").isSome = true <;>
  by_cases h3 : (w.fs "/sbin/initctl").isSome = true <;>
  simp [h1, h2, h3]

/-! ## C8: the privilege check comes first -/

/-- C8. When the privilege check returns false, each of `InstallFromPath`, `Remove`,
`Start`, `Stop` and `Status` returns a non-nil error with the `rootPrivileges` text,
leaves the filesystem as it was and issues no `initctl` command, whatever the
installed or running state (the filesystem and the host are arbitrary). -/
theorem unprivileged_refused (h : Host σ) (linux : upstartRecord) (thePath : String)
    (w : World σ) (hpriv : (checkPrivileges h w).1 = false) :
    RefusedUnprivileged w (linux.InstallFromPath h thePath w) ∧
    RefusedUnprivileged w (linux.Remove h w) ∧
    RefusedUnprivileged w (linux.Start h w) ∧
    RefusedUnprivileged w (linux.Stop h w) ∧
    RefusedUnprivileged w (linux.Status h w) := by
  simp [RefusedUnprivileged, upstartRecord.InstallFromPath, upstartRecord.Remove,
    upstartRecord.Start, upstartRecord.Stop, upstartRecord.Status, hpriv]

/-- C8 at a concrete input: a caller of group 1000 on a host where `demo` is installed
and running. -/
theorem unprivileged_refused_witness :
    (checkPrivileges (demoHost "1000" none "demo start/running, process 1234\n")
        (demoWorld 0o755 true true)).1 = false ∧
    RefusedUnprivileged (demoWorld 0o755 true true)
      (demo.Remove (demoHost "1000" none "demo start/running, process 1234\n")
        (demoWorld 0o755 true true)) :=
  ⟨by decide,
   (unprivileged_refused (demoHost "1000" none "demo start/running, process 1234\n") demo
      "/usr/local/bin/demo" (demoWorld 0o755 true true) (by decide)).2.1⟩

/-! ## C5: stopping a stopped service -/

/-- C5. For a privileged caller and an installed service whose `initctl status` fails
or prints no "start/running", `Stop` returns the failure-marked string with the error
"service already stopped", leaves the filesystem as it was, and issues nothing but the
`id -g` of the privilege check and the `initctl status` probe: no `initctl stop`,
`initctl start` or `initctl reload-configuration`. -/
theorem Stop_already_stopped (h : Host σ) (linux : upstartRecord) (w : World σ)
    (hpriv : (checkPrivileges h w).1 = true)
    (hinst : linux.checkInstalled w = true)
    (hstopped :
      (h.run ["initctl", "status", linux.name] w.fs (checkPrivileges h w).2.st).1.err ≠ none ∨
      stringsContains
        (h.run ["initctl", "status", linux.name] w.fs (checkPrivileges h w).2.st).1.stdout
        "start/running" = false) :
    (linux.Stop h w).1 =
      ("Stopping " ++ linux.description ++ ":" ++ failed, some "service already stopped") ∧
    (linux.Stop h w).2.fs = w.fs ∧
    (linux.Stop h w).2.log = w.log ++ [["id", "-g"], ["initctl", "status", linux.name]] := by
  have hrun : (linux.checkRunning h (checkPrivileges h w).2).1.2 = false := by
    simp only [upstartRecord.checkRunning, execCommand, checkPrivileges_fs]
    rcases hstopped with he | hc
    · simp [he]
    · simp [hc]
  simp [upstartRecord.Stop, hpriv, hinst, hrun]

/-- C5 at a concrete input: root stops the installed, stopped service `demo`. -/
theorem Stop_already_stopped_witness :
    (demo.Stop (demoHost "0" none "demo start/running, process 1234\n")
        (demoWorld 0o755 true false)).1 =
      ("Stopping Demo Service:" ++ failed, some "service already stopped") ∧
    (demo.Stop (demoHost "0" none "demo start/running, process 1234\n")
        (demoWorld 0o755 true false)).2.log =
      [["id", "-g"], ["initctl", "status", "demo"]] :=
  have key := Stop_already_stopped (demoHost "0" none "demo start/running, process 1234\n")
    demo (demoWorld 0o755 true false) (by decide) (by decide) (Or.inr (by decide))
  ⟨key.1, key.2.2⟩

/-! ## C3, C4: the stop step of `Remove` -/

/-- C3. For a privileged caller and an installed service: when the `initctl stop` of
`Remove` fails with an error `e` and `e` or the combined output contains
"Unknown instance", and deleting the definition file and
`initctl reload-configuration` both succeed, `Remove` returns the success-marked string
with a nil error and the definition file no longer exists. -/
theorem Remove_tolerates_unknown_instance (h : Host σ) (linux : upstartRecord)
    (w : World σ) (e : String)
    (hpriv : (checkPrivileges h w).1 = true)
    (hinst : linux.checkInstalled w = true)
    (hstop : (execCommand h ["initctl", "stop", linux.name] (checkPrivileges h w).2).1.err
      = some e)
    (hunknown : stringsContains e "Unknown instance" = true ∨
      stringsContains
        (execCommand h ["initctl", "stop", linux.name] (checkPrivileges h w).2).1.combined
        "Unknown instance" = true)
    (hdelete : (osRemove h linux.servicePath
      (execCommand h ["initctl", "stop", linux.name] (checkPrivileges h w).2).2).1 = none)
    (hreload : (execCommand h ["initctl", "reload-configuration"]
      (osRemove h linux.servicePath
        (execCommand h ["initctl", "stop", linux.name] (checkPrivileges h w).2).2).2).1.err
      = none) :
    (linux.Remove h w).1 = ("Removing " ++ linux.description ++ ":" ++ success, none) ∧
    (linux.Remove h w).2.fs linux.servicePath = none := by
  have hline : stringsContains
      (e ++ ": " ++
        (execCommand h ["initctl", "stop", linux.name] (checkPrivileges h w).2).1.combined)
      "Unknown instance" = true := by
    rw [line_contains_unknown]
    simpa using hunknown
  have hso : linux.stop_only h (checkPrivileges h w).2 =
      ((true, none), (execCommand h ["initctl", "stop", linux.name] (checkPrivileges h w).2).2) := by
    simp [upstartRecord.stop_only, hstop, errorText, hline]
  have hfs : (osRemove h linux.servicePath
      (execCommand h ["initctl", "stop", linux.name] (checkPrivileges h w).2).2).2.fs
      linux.servicePath = none := by
    revert hdelete
    unfold osRemove
    split
    · simp
    · split <;> simp
  simp [upstartRecord.Remove, hpriv, hinst, hso, hdelete, hreload, hfs]

/-- C3 at a concrete input: `initctl stop demo` exits with status 1 and prints
"initctl: Unknown instance: ". -/
theorem Remove_tolerates_unknown_instance_witness :
    (demo.Remove (demoHost "0" (some ("exit status 1", "initctl: Unknown instance: \n")) "")
        (demoWorld 0o755 true false)).1 = ("Removing Demo Service:" ++ success, none) ∧
    (demo.Remove (demoHost "0" (some ("exit status 1", "initctl: Unknown instance: \n")) "")
        (demoWorld 0o755 true false)).2.fs "/etc/init/demo.conf" = none :=
  Remove_tolerates_unknown_instance
    (demoHost "0" (some ("exit status 1", "initctl: Unknown instance: \n")) "") demo
    (demoWorld 0o755 true false) "exit status 1" (by decide) (by decide) (by decide)
    (Or.inr (by decide)) (by decide) (by decide)

/-- C4. For a privileged caller and an installed service: when the `initctl stop` of
`Remove` fails with an error `e` and neither `e` nor the combined output contains
"Unknown instance", `Remove` returns the failure-marked string with a non-nil error,
the filesystem is left as it was (the definition file is not deleted) and the commands
issued are `id -g` and `initctl stop` only: no `initctl reload-configuration`. -/
theorem Remove_fatal_stop_failure (h : Host σ) (linux : upstartRecord)
    (w : World σ) (e : String)
    (hpriv : (checkPrivileges h w).1 = true)
    (hinst : linux.checkInstalled w = true)
    (hstop : (execCommand h ["initctl", "stop", linux.name] (checkPrivileges h w).2).1.err
      = some e)
    (hother : stringsContains e "Unknown instance" = false ∧
      stringsContains
        (execCommand h ["initctl", "stop", linux.name] (checkPrivileges h w).2).1.combined
        "Unknown instance" = false) :
    (linux.Remove h w).1.1 = "Removing " ++ linux.description ++ ":" ++ failed ∧
    (linux.Remove h w).1.2 ≠ none ∧
    (linux.Remove h w).2.fs = w.fs ∧
    (linux.Remove h w).2.log = w.log ++ [["id", "-g"], ["initctl", "stop", linux.name]] := by
  have hline : stringsContains
      (e ++ ": " ++
        (execCommand h ["initctl", "stop", linux.name] (checkPrivileges h w).2).1.combined)
      "Unknown instance" = false := by
    rw [line_contains_unknown]
    simp [hother.1, hother.2]
  have hso : linux.stop_only h (checkPrivileges h w).2 =
      ((false, some ("unknown error: " ++ (e ++ ": " ++
        (execCommand h ["initctl", "stop", linux.name] (checkPrivileges h w).2).1.combined))),
       (execCommand h ["initctl", "stop", linux.name] (checkPrivileges h w).2).2) := by
    simp [upstartRecord.stop_only, hstop, errorText, hline]
  simp [upstartRecord.Remove, hpriv, hinst, hso]

/-- C4 at a concrete input: `initctl stop demo` exits with status 1 and prints
"initctl: Unknown job: demo". -/
theorem Remove_fatal_stop_failure_witness :
    (demo.Remove (demoHost "0" (some ("exit status 1", "initctl: Unknown job: demo\n")) "")
        (demoWorld 0o755 true true)).1.1 = "Removing Demo Service:" ++ failed ∧
    (demo.Remove (demoHost "0" (some ("exit status 1", "initctl: Unknown job: demo\n")) "")
        (demoWorld 0o755 true true)).1.2 ≠ none ∧
    (demo.Remove (demoHost "0" (some ("exit status 1", "initctl: Unknown job: demo\n")) "")
        (demoWorld 0o755 true true)).2.fs = (demoWorld 0o755 true true).fs ∧
    (demo.Remove (demoHost "0" (some ("exit status 1", "initctl: Unknown job: demo\n")) "")
        (demoWorld 0o755 true true)).2.log = [["id", "-g"], ["initctl", "stop", "demo"]] :=
  Remove_fatal_stop_failure
    (demoHost "0" (some ("exit status 1", "initctl: Unknown job: demo\n")) "") demo
    (demoWorld 0o755 true true) "exit status 1" (by decide) (by decide) (by decide)
    ⟨by decide, by decide⟩

/-! ## C6: starting a running service -/

/-- C6. For a privileged caller and an installed service: (1) when `initctl status`
succeeds and prints "start/running", `Start` returns the failure-marked string with
the error "service already running" and issues only `id -g` and `initctl status`, no
`initctl start`; (2) on a host where a successful `initctl start` makes the status
output contain "start/running", a `Start` that directly follows a successful `Start`,
the caller still privileged, fails with that error. -/
theorem Start_already_running (h : Host σ) (linux : upstartRecord) (w : World σ)
    (hpriv : (checkPrivileges h w).1 = true)
    (hinst : linux.checkInstalled w = true) :
    (((h.run ["initctl", "status", linux.name] w.fs (checkPrivileges h w).2.st).1.err = none ∧
      stringsContains
        (h.run ["initctl", "status", linux.name] w.fs (checkPrivileges h w).2.st).1.stdout
        "start/running" = true) →
      (linux.Start h w).1 =
        ("Starting " ++ linux.description ++ ":" ++ failed, some "service already running") ∧
      (linux.Start h w).2.fs = w.fs ∧
      (linux.Start h w).2.log =
        w.log ++ [["id", "-g"], ["initctl", "status", linux.name]]) ∧
    (StartTakesEffect h linux.name →
      (linux.Start h w).1.2 = none →
      (checkPrivileges h (linux.Start h w).2).1 = true →
      (linux.Start h (linux.Start h w).2).1 =
        ("Starting " ++ linux.description ++ ":" ++ failed, some "service already running") ∧
      (linux.Start h (linux.Start h w).2).2.log =
        (linux.Start h w).2.log ++ [["id", "-g"], ["initctl", "status", linux.name]]) := by
  have first : ∀ v : World σ, (checkPrivileges h v).1 = true → linux.checkInstalled v = true →
      ((h.run ["initctl", "status", linux.name] v.fs (checkPrivileges h v).2.st).1.err = none ∧
        stringsContains
          (h.run ["initctl", "status", linux.name] v.fs (checkPrivileges h v).2.st).1.stdout
          "start/running" = true) →
      (linux.Start h v).1 =
        ("Starting " ++ linux.description ++ ":" ++ failed, some "service already running") ∧
      (linux.Start h v).2.fs = v.fs ∧
      (linux.Start h v).2.log =
        v.log ++ [["id", "-g"], ["initctl", "status", linux.name]] := by
    intro v hp hi hr
    have hrun : (linux.checkRunning h (checkPrivileges h v).2).1.2 = true := by
      rw [checkRunning_result, checkPrivileges_fs, if_pos hr]
    simp [upstartRecord.Start, hp, hi, hrun]
  refine ⟨first w hpriv hinst, ?_⟩
  intro heffect hok hpriv2
  -- the first `Start` got as far as `initctl start`, which succeeded
  have hnotrun : (linux.checkRunning h (checkPrivileges h w).2).1.2 = false := by
    by_contra hc
    simp [upstartRecord.Start, hpriv, hinst, hc] at hok
  have hstart : (h.run ["initctl", "start", linux.name] w.fs
      (linux.checkRunning h (checkPrivileges h w).2).2.st).1.err = none := by
    cases hcmd : (h.run ["initctl", "start", linux.name] w.fs
      (linux.checkRunning h (checkPrivileges h w).2).2.st).1.err with
    | none => rfl
    | some e => simp [upstartRecord.Start, hpriv, hinst, hnotrun, execCommand, hcmd] at hok
  have hworld : (linux.Start h w).2 =
      (execCommand h ["initctl", "start", linux.name]
        (linux.checkRunning h (checkPrivileges h w).2).2).2 := by
    simp only [upstartRecord.Start]
    rw [if_neg (by simp [hpriv]), if_neg (by simp [hinst]), if_neg (by simp [hnotrun])]
    split <;> rfl
  have hfs : (linux.Start h w).2.fs = w.fs := by rw [hworld]; rfl
  have hinst2 : linux.checkInstalled (linux.Start h w).2 = true := by
    simpa [upstartRecord.checkInstalled, osStat, hfs] using hinst
  have hrunning := heffect w.fs (linux.checkRunning h (checkPrivileges h w).2).2.st hstart
  have hsecond := first (linux.Start h w).2 hpriv2 hinst2 (by
    rw [hfs]
    have hst : (checkPrivileges h (linux.Start h w).2).2.st =
        (h.run ["id", "-g"] w.fs (h.run ["initctl", "start", linux.name] w.fs
          (linux.checkRunning h (checkPrivileges h w).2).2.st).2).2 := by
      rw [hworld]; rfl
    rw [hst]
    exact hrunning)
  exact ⟨hsecond.1, hsecond.2.2⟩

/-- C6 at concrete inputs: root starts the installed service `demo` while it runs, and
root starts it twice in a row from the stopped state. -/
theorem Start_already_running_witness :
    (demo.Start (demoHost "0" none "demo start/running, process 1234\n")
        (demoWorld 0o755 true true)).1 =
      ("Starting Demo Service:" ++ failed, some "service already running") ∧
    (demo.Start (demoHost "0" none "demo start/running, process 1234\n")
        (demoWorld 0o755 true false)).1.2 = none ∧
    (demo.Start (demoHost "0" none "demo start/running, process 1234\n")
        (demo.Start (demoHost "0" none "demo start/running, process 1234\n")
          (demoWorld 0o755 true false)).2).1 =
      ("Starting Demo Service:" ++ failed, some "service already running") :=
  ⟨((Start_already_running (demoHost "0" none "demo start/running, process 1234\n") demo
      (demoWorld 0o755 true true) (by decide) (by decide)).1 ⟨by decide, by decide⟩).1,
   by decide,
   ((Start_already_running (demoHost "0" none "demo start/running, process 1234\n") demo
      (demoWorld 0o755 true false) (by decide) (by decide)).2
      (fun _ _ _ => ⟨rfl, rfl⟩) (by decide) (by decide)).1⟩

/-! ## C7: `Status` -/

/-- C7. For a privileged caller, `Status` returns a non-nil error exactly when the
definition file does not exist.  When it is absent the error is
"<description> is not installed" and the string is no line `checkRunning` ever
produces (for any service on any host); when it is present the error is nil whatever
the status command answers, and when that command fails or prints no "start/running"
the string is "Service is stopped". -/
theorem Status_error_iff_not_installed (h : Host σ) (linux : upstartRecord) (w : World σ)
    (hpriv : (checkPrivileges h w).1 = true) :
    ((linux.Status h w).1.2 ≠ none ↔ w.fs linux.servicePath = none) ∧
    (w.fs linux.servicePath = none →
      (linux.Status h w).1.2 = some (linux.description ++ " is not installed") ∧
      ∀ (τ : Type) (h' : Host τ) (linux' : upstartRecord) (w' : World τ),
        (linux'.checkRunning h' w').1.1 ≠ (linux.Status h w).1.1) ∧
    (w.fs linux.servicePath ≠ none →
      (linux.Status h w).1.2 = none ∧
      (((h.run ["initctl", "status", linux.name] w.fs (checkPrivileges h w).2.st).1.err ≠ none ∨
        stringsContains
          (h.run ["initctl", "status", linux.name] w.fs (checkPrivileges h w).2.st).1.stdout
          "start/running" = false) →
        (linux.Status h w).1.1 = "Service is stopped")) := by
  cases hfile : w.fs linux.servicePath with
  | none =>
    have hinst : linux.checkInstalled w = false := by
      simp [upstartRecord.checkInstalled, osStat, hfile]
    have hstatus : (linux.Status h w).1 =
        ("Status could not defined", some (linux.description ++ " is not installed")) := by
      simp [upstartRecord.Status, hpriv, hinst]
    refine ⟨by simp [hstatus], fun _ => ⟨by simp [hstatus], ?_⟩, fun hne => absurd rfl hne⟩
    intro τ h' linux' w'
    rw [hstatus, checkRunning_result]
    split
    · show "Service is running..." ≠ "Status could not defined"
      decide
    · show "Service is stopped" ≠ "Status could not defined"
      decide
  | some f =>
    have hinst : linux.checkInstalled w = true := by
      simp [upstartRecord.checkInstalled, osStat, hfile]
    have hstatus : (linux.Status h w).1 =
        ((linux.checkRunning h (checkPrivileges h w).2).1.1, none) := by
      simp [upstartRecord.Status, hpriv, hinst]
    refine ⟨by simp [hstatus], fun hnone => by simp at hnone, fun _ => ⟨by simp [hstatus], ?_⟩⟩
    intro hstopped
    rw [hstatus, checkRunning_result, checkPrivileges_fs]
    rw [if_neg]
    rintro ⟨he, hc⟩
    rcases hstopped with hs | hs
    · exact hs he
    · rw [hc] at hs
      exact absurd hs (by decide)

/-- C7 at a concrete input: root asks for the status of `demo`, never installed. -/
theorem Status_error_iff_not_installed_witness :
    (demo.Status (demoHost "0" none "") (demoWorld 0o755 false false)).1 =
      ("Status could not defined", some "Demo Service is not installed") ∧
    (demo.Status (demoHost "0" none "") (demoWorld 0o755 true false)).1 =
      ("Service is stopped", none) :=
  ⟨Prod.ext (by decide)
    (((Status_error_iff_not_installed (demoHost "0" none "") demo
      (demoWorld 0o755 false false) (by decide)).2.1 (by decide)).1),
   Prod.ext
    (((Status_error_iff_not_installed (demoHost "0" none "") demo
      (demoWorld 0o755 true false) (by decide)).2.2 (by decide)).2 (Or.inr (by decide)))
    (((Status_error_iff_not_installed (demoHost "0" none "") demo
      (demoWorld 0o755 true false) (by decide)).2.2 (by decide)).1)⟩

/-! ## C9: the marker follows the error -/

theorem marked_success (label : String) : Marked label (label ++ success, none) := by
  simp [Marked, success_ne_failed]

theorem marked_failed (label e : String) : Marked label (label ++ failed, some e) := by
  simp [Marked, (success_ne_failed label).symm]

theorem InstallFromPath_marked (h : Host σ) (linux : upstartRecord) (thePath : String)
    (w : World σ) :
    Marked ("Install " ++ linux.description ++ ":") (linux.InstallFromPath h thePath w).1 := by
  unfold upstartRecord.InstallFromPath
  simp only
  repeat' split
  all_goals first | exact marked_failed _ _ | exact marked_success _

/-- C9. For `Install`, `InstallFromPath`, `Remove`, `Start` and `Stop`, on every host
and in every world, the returned string is the action label followed by the success
marker exactly when the returned error is nil, and the label followed by the failure
marker exactly when the error is non-nil. -/
theorem result_marker_matches_error (h : Host σ) (linux : upstartRecord) (thePath : String)
    (w : World σ) :
    Marked ("Install " ++ linux.description ++ ":") (linux.Install h w).1 ∧
    Marked ("Install " ++ linux.description ++ ":") (linux.InstallFromPath h thePath w).1 ∧
    Marked ("Removing " ++ linux.description ++ ":") (linux.Remove h w).1 ∧
    Marked ("Starting " ++ linux.description ++ ":") (linux.Start h w).1 ∧
    Marked ("Stopping " ++ linux.description ++ ":") (linux.Stop h w).1 := by
  refine ⟨?_, InstallFromPath_marked h linux thePath w, ?_, ?_, ?_⟩
  · unfold upstartRecord.Install
    simp only
    split
    · exact marked_failed _ _
    · exact InstallFromPath_marked h linux _ w
  · unfold upstartRecord.Remove
    simp only
    repeat' split
    all_goals first | exact marked_failed _ _ | exact marked_success _
  · unfold upstartRecord.Start
    simp only
    repeat' split
    all_goals first | exact marked_failed _ _ | exact marked_success _
  · unfold upstartRecord.Stop
    simp only
    repeat' split
    all_goals first | exact marked_failed _ _ | exact marked_success _

/-! ## C2: a target that is not executable -/

/-- C2, the code on every input and at a concrete one.  Whenever a privileged caller
installs a service without definition file, `os.Create` succeeds and `IsExecutable`
answers false, `InstallFromPath` fails with the not-executable error and leaves the
definition file behind, empty: `os.Create` runs before `IsExecutable` and nothing
removes the file.  So when root installs `demo` from `/usr/local/bin/demo`, which
exists with mode 0644: the definition file, absent before the call, exists afterwards,
and a second call fails with "already installed". -/
theorem InstallFromPath_not_executable_creates_file :
    (∀ (τ : Type) (h : Host τ) (linux : upstartRecord) (thePath : String) (w : World τ),
      (checkPrivileges h w).1 = true →
      w.fs linux.servicePath = none →
      (osCreate h linux.servicePath (checkPrivileges h w).2).1 = none →
      IsExecutable h thePath (osCreate h linux.servicePath (checkPrivileges h w).2).2
        = (false, none) →
      (linux.InstallFromPath h thePath w).1 =
        ("Install " ++ linux.description ++ ":" ++ failed,
         some ("target is not executable: " ++ thePath)) ∧
      (linux.InstallFromPath h thePath w).2.fs linux.servicePath =
        some ⟨andNot 0o666 h.umask, ""⟩) ∧
    (demoWorld 0o644 false false).fs "/usr/local/bin/demo" = some ⟨0o644, ""⟩ ∧
    (demoWorld 0o644 false false).fs "/etc/init/demo.conf" = none ∧
    (demo.InstallFromPath (demoHost "0" none "") "/usr/local/bin/demo"
        (demoWorld 0o644 false false)).1 =
      ("Install Demo Service:" ++ failed,
       some "target is not executable: /usr/local/bin/demo") ∧
    (demo.InstallFromPath (demoHost "0" none "") "/usr/local/bin/demo"
        (demoWorld 0o644 false false)).2.fs "/etc/init/demo.conf" = some ⟨0o644, ""⟩ ∧
    (demo.InstallFromPath (demoHost "0" none "") "/usr/local/bin/demo"
        (demo.InstallFromPath (demoHost "0" none "") "/usr/local/bin/demo"
          (demoWorld 0o644 false false)).2).1.2 = some "Demo Service already installed" := by
  refine ⟨?_, by decide, by decide, by decide, by decide, by decide⟩
  intro τ h linux thePath w hpriv hfile hcreate hexec
  have hinst : linux.checkInstalled w = false := by
    simp [upstartRecord.checkInstalled, osStat, hfile]
  have hfs : (osCreate h linux.servicePath (checkPrivileges h w).2).2.fs linux.servicePath =
      some ⟨andNot 0o666 h.umask, ""⟩ := by
    revert hcreate
    unfold osCreate
    split
    · simp
    · simp [hfile]
  simp [upstartRecord.InstallFromPath, hpriv, hinst, hcreate, hexec, hfs]

/-! ## C10: the process identifier in the status line -/

/-- C10, the code on every input and at a concrete one.  On every host `checkRunning`
answers ("Service is running...", true) or ("Service is stopped", false), never with
the line that carries a process identifier.  When `initctl status demo` succeeds and
prints "demo start/running, process 1234", `process [0-9]+` matches "process 1234",
but the pattern has no capture group: `FindStringSubmatch` returns one element and
the line is the one without process identifier. -/
theorem checkRunning_drops_pid :
    (∀ (τ : Type) (h : Host τ) (linux : upstartRecord) (w : World τ),
      (linux.checkRunning h w).1 = ("Service is running...", true) ∨
      (linux.checkRunning h w).1 = ("Service is stopped", false)) ∧
    FindStringSubmatch "demo start/running, process 1234\n" = ["process 1234"] ∧
    (demo.checkRunning (demoHost "0" none "demo start/running, process 1234\n")
        (demoWorld 0o755 true true)).1 = ("Service is running...", true) := by
  refine ⟨?_, by decide, by decide⟩
  intro τ h linux w
  rw [checkRunning_result]
  split
  · exact Or.inl rfl
  · exact Or.inr rfl

end DaemonPkg
